import Mathlib

/-!
Verification development for the iOS IPA binary-analysis module
(`StaticAnalyzer/views/ios/binary_analysis.py`).

The Python module is shallowly embedded below.  Bytes and str values are
both modelled as `String` (all data handled by the module is text; the
permissive utf-8 decode with errors ignored is the identity on the texts
considered here).  External effects (`subprocess.check_output`, `os.chmod`,
file writes, `os.listdir`, `is_file_exists`, the `macholib` header parse,
`strings_util`, `platform.system()` and the Django settings) are modelled
as fields of an explicit environment record `Env`.  A Python call that can
raise is modelled with `Except Unit`; a `try/except` handler that logs and
falls off the end of the function (returning `None`) is modelled by mapping
`Except.error` to `Option.none`.
-/

/-- Python `needle in hay` on the underlying character lists:
`subListOf n h` is true iff `n` occurs as a contiguous sublist of `h`. -/
def subListOf (needle : List Char) : List Char → Bool
  | [] => needle.isEmpty
  | c :: rest => needle.isPrefixOf (c :: rest) || subListOf needle rest

/-- Python's `in` operator on strings / bytes. -/
def pyIn (needle hay : String) : Bool :=
  subListOf needle.toList hay.toList

theorem subListOf_iff_infix (n h : List Char) :
    subListOf n h = true ↔ n <:+: h := by
  induction h with
  | nil =>
    simp [subListOf, List.isEmpty_iff, List.infix_nil]
  | cons c rest ih =>
    simp only [subListOf, Bool.or_eq_true, List.isPrefixOf_iff_prefix, ih,
      List.infix_cons_iff]

theorem pyIn_iff (needle hay : String) :
    pyIn needle hay = true ↔ needle.toList <:+: hay.toList := by
  unfold pyIn; exact subListOf_iff_infix _ _

/-- Python `str.endswith`. -/
def pyEndsWith (s suf : String) : Bool :=
  suf.toList.isSuffixOf s.toList

/-- Remove every (non-overlapping, leftmost-first) occurrence of `pat`;
this embeds Python `text.replace(pat, '')` for a non-empty `pat`
(for an empty `pat` we return the text unchanged; the module only calls
`replace` with patterns ending in a path separator or `.app`, never empty). -/
def removeAllOccAux (pat : List Char) : Nat → List Char → List Char
  | 0, l => l
  | _ + 1, [] => []
  | fuel + 1, c :: rest =>
    if pat ≠ [] ∧ pat.isPrefixOf (c :: rest) then
      removeAllOccAux pat fuel (List.drop (pat.length - 1) rest)
    else
      c :: removeAllOccAux pat fuel rest

/-- Each step of `removeAllOccAux` shortens the list, so `length + 1`
units of fuel always suffice. -/
def removeAllOcc (pat s : List Char) : List Char :=
  removeAllOccAux pat (s.length + 1) s

/-- Python `text.replace(pat, '')`. -/
def pyRemoveAll (text pat : String) : String :=
  (removeAllOcc pat.toList text.toList).asString

/-- Python `text.split('\n')`. -/
def splitLinesAux : List Char → List (List Char)
  | [] => [[]]
  | c :: rest =>
    if c = '\n' then [] :: splitLinesAux rest
    else
      match splitLinesAux rest with
      | [] => [[c]]
      | l :: ls => (c :: l) :: ls

def pySplitLines (s : String) : List String :=
  (splitLinesAux s.toList).map List.asString

/-- Django `escape`: per-character HTML escaping of `& < > " '`. -/
def escapeChar (c : Char) : String :=
  if c = '&' then "&amp;"
  else if c = '<' then "&lt;"
  else if c = '>' then "&gt;"
  else if c = '"' then "&quot;"
  else if c = '\x27' then "&#x27;"
  else String.singleton c

def escape (s : String) : String :=
  String.join (s.toList.map escapeChar)

/-- Python `', '.join(xs)` style separator join. -/
def joinSep (sep : String) : List String → String
  | [] => ""
  | [x] => x
  | x :: y :: xs => x ++ sep ++ joinSep sep (y :: xs)

/-- `os.path.join` for the POSIX paths used by the module. -/
def pathJoin (a b : String) : String :=
  if b.toList.head? = some '/' then b
  else if a = "" then b
  else if a.toList.getLast? = some '/' then a ++ b
  else a ++ "/" ++ b

/-- First token of `toks` (pattern order) that matches at the head of `s`:
one step of Python `re` alternation over literal alternatives. -/
def matchFirst (toks : List String) (s : List Char) : Option String :=
  toks.find? (fun t => t.toList.isPrefixOf s)

/-- `re.findall` for a pattern that is an alternation of literal tokens
(`t1|t2|...|tn`, where a token may be the empty string, as produced by a
stray `||` in the pattern): scan left to right, at each position emit the
first token in pattern order that matches there; a non-empty match is
consumed, an empty match advances one character; the final position can
contribute one empty match. -/
def reFindallAux (toks : List String) : Nat → List Char → List String
  | 0, _ => []
  | _ + 1, [] =>
    (match matchFirst toks [] with
     | some t => [t]
     | none => [])
  | fuel + 1, c :: rest =>
    match matchFirst toks (c :: rest) with
    | some t =>
      if t.isEmpty then t :: reFindallAux toks fuel rest
      else t :: reFindallAux toks fuel (List.drop (t.length - 1) rest)
    | none => reFindallAux toks fuel rest

/-- Each scanning step consumes at least one character (or reaches the
final position), so `length + 1` units of fuel always suffice. -/
def reFindall (toks : List String) (s : List Char) : List String :=
  reFindallAux toks (s.length + 1) s

/-- `list(set(xs))`: a deduplicated copy of `xs` (Python set iteration
order is unspecified; the embedding fixes `List.dedup`'s order). -/
def pySet (xs : List String) : List String :=
  xs.dedup

/- ## Data model -/

/-- A finding dictionary as built by the module: issue title, status,
description, CVSS severity and CWE weakness identifier. -/
structure Finding where
  issue : String
  status : String
  description : String
  cvss : ℚ
  cwe : String
deriving DecidableEq, Repr

def SECURE : String := "Secure"
def IN_SECURE : String := "Insecure"
def INFO : String := "Info"
def WARNING : String := "Warning"

/-- `{'endian':…, 'bit':…, 'arch':…, 'subarch':…}` from `get_bin_info`. -/
structure BinInfo where
  endian : String
  bit : String
  arch : String
  subarch : String
deriving DecidableEq, Repr

/-- The environment of the module: host platform, Django settings entries,
and oracles for every external effect. -/
structure Env where
  platform : String
  otool_binary : String
  jtool_binary : String
  classdump_swift_binary : String
  classdumpz_binary : String
  file_exists : String → Bool
  check_output : List String → Except Unit String
  chmod_ok : String → Bool
  write_ok : String → Bool
  listdir : String → List String
  strings_util : String → Except Unit (List String)
  machO : String → Except Unit (Option BinInfo)

/- ## Signature token catalogs (transcribed from the source regexes) -/

def banned_tokens : List String :=
  ["_alloca", "_gets", "_memcpy", "_printf", "_scanf", "_sprintf",
   "_sscanf", "_strcat", "StrCat", "_strcpy", "StrCpy", "_strlen",
   "StrLen", "_strncat", "StrNCat", "_strncpy", "StrNCpy", "_strtok",
   "_swprintf", "_vsnprintf", "_vsprintf", "_vswprintf", "_wcscat",
   "_wcscpy", "_wcslen", "_wcsncat", "_wcsncpy", "_wcstok", "_wmemcpy",
   "_fopen", "_chmod", "_chown", "_stat", "_mktemp"]

/-- The weak-crypto pattern in the source reads
`kCCAlgorithmDES|kCCAlgorithm3DES||kCCAlgorithmRC2|…`: the doubled pipe
contributes an empty alternative, transcribed here as the empty string in
third position. -/
def weak_algo_tokens : List String :=
  ["kCCAlgorithmDES", "kCCAlgorithm3DES", "", "kCCAlgorithmRC2",
   "kCCAlgorithmRC4", "kCCOptionECBMode", "kCCOptionCBCMode"]

def crypto_tokens : List String :=
  ["CCKeyDerivationPBKDF", "CCCryptorCreate", "CCCryptorCreateFromData",
   "CCCryptorRelease", "CCCryptorUpdate", "CCCryptorFinal",
   "CCCryptorGetOutputLength", "CCCryptorReset", "CCCryptorRef",
   "kCCEncrypt", "kCCDecrypt", "kCCAlgorithmAES128", "kCCKeySizeAES128",
   "kCCKeySizeAES192", "kCCKeySizeAES256", "kCCAlgorithmCAST",
   "SecCertificateGetTypeID", "SecIdentityGetTypeID", "SecKeyGetTypeID",
   "SecPolicyGetTypeID", "SecTrustGetTypeID",
   "SecCertificateCreateWithData", "SecCertificateCreateFromData",
   "SecCertificateCopyData", "SecCertificateAddToKeychain",
   "SecCertificateGetData", "SecCertificateCopySubjectSummary",
   "SecIdentityCopyCertificate", "SecIdentityCopyPrivateKey",
   "SecPKCS12Import", "SecKeyGeneratePair", "SecKeyEncrypt",
   "SecKeyDecrypt", "SecKeyRawSign", "SecKeyRawVerify",
   "SecKeyGetBlockSize", "SecPolicyCopyProperties",
   "SecPolicyCreateBasicX509", "SecPolicyCreateSSL",
   "SecTrustCopyCustomAnchorCertificates", "SecTrustCopyExceptions",
   "SecTrustCopyProperties", "SecTrustCopyPolicies",
   "SecTrustCopyPublicKey", "SecTrustCreateWithCertificates",
   "SecTrustEvaluate", "SecTrustEvaluateAsync",
   "SecTrustGetCertificateCount", "SecTrustGetCertificateAtIndex",
   "SecTrustGetTrustResult", "SecTrustGetVerifyTime",
   "SecTrustSetAnchorCertificates", "SecTrustSetAnchorCertificatesOnly",
   "SecTrustSetExceptions", "SecTrustSetPolicies",
   "SecTrustSetVerifyDate", "SecCertificateRef", "SecIdentityRef",
   "SecKeyRef", "SecPolicyRef", "SecTrustRef"]

def weak_hash_tokens : List String :=
  ["CC_MD2_Init", "CC_MD2_Update", "CC_MD2_Final", "CC_MD2", "MD2_Init",
   "MD2_Update", "MD2_Final", "CC_MD4_Init", "CC_MD4_Update",
   "CC_MD4_Final", "CC_MD4", "MD4_Init", "MD4_Update", "MD4_Final",
   "CC_MD5_Init", "CC_MD5_Update", "CC_MD5_Final", "CC_MD5", "MD5_Init",
   "MD5_Update", "MD5_Final", "MD5Init", "MD5Update", "MD5Final",
   "CC_SHA1_Init", "CC_SHA1_Update", "CC_SHA1_Final", "CC_SHA1",
   "SHA1_Init", "SHA1_Update", "SHA1_Final"]

def hash_tokens : List String :=
  ["CC_SHA224_Init", "CC_SHA224_Update", "CC_SHA224_Final", "CC_SHA224",
   "SHA224_Init", "SHA224_Update", "SHA224_Final", "CC_SHA256_Init",
   "CC_SHA256_Update", "CC_SHA256_Final", "CC_SHA256", "SHA256_Init",
   "SHA256_Update", "SHA256_Final", "CC_SHA384_Init", "CC_SHA384_Update",
   "CC_SHA384_Final", "CC_SHA384", "SHA384_Init", "SHA384_Update",
   "SHA384_Final", "CC_SHA512_Init", "CC_SHA512_Update",
   "CC_SHA512_Final", "CC_SHA512", "SHA512_Init", "SHA512_Update",
   "SHA512_Final"]

def rand_tokens : List String := ["_srand", "_random"]

def log_tokens : List String := ["_NSLog"]

def malloc_tokens : List String := ["_malloc"]

def ptrace_tokens : List String := ["_ptrace"]

/- ## The findings built by `otool_analysis` and `class_dump` -/

def pie_found : Finding :=
  { issue := "fPIE -pie flag is Found"
    status := SECURE
    description := "App is compiled with Position Independent Executable (PIE) flag. This enables Address Space Layout Randomization (ASLR), a memory protection mechanism for exploit mitigation."
    cvss := 0
    cwe := "" }

def pie_not_found : Finding :=
  { issue := "fPIE -pie flag is not Found"
    status := IN_SECURE
    description := "with Position Independent Executable (PIE) flag. So Address Space Layout Randomization (ASLR) is missing. ASLR is a memory protection mechanism for exploit mitigation."
    cvss := 2
    cwe := "CWE-119" }

def ssmash_found : Finding :=
  { issue := "fstack-protector-all flag is Found"
    status := SECURE
    description := "App is compiled with Stack Smashing Protector (SSP) flag and is having protection against Stack Overflows/Stack Smashing Attacks."
    cvss := 0
    cwe := "" }

def ssmash_not_found : Finding :=
  { issue := "fstack-protector-all flag is not Found"
    status := IN_SECURE
    description := "App is not compiled with Stack Smashing Protector (SSP) flag. It is vulnerable toStack Overflows/Stack Smashing Attacks."
    cvss := 2
    cwe := "CWE-119" }

def arc_found : Finding :=
  { issue := "fobjc-arc flag is Found"
    status := SECURE
    description := "App is compiled with Automatic Reference Counting (ARC) flag. ARC is a compiler feature that provides automatic memory management of Objective-C objects and is an exploit mitigation mechanism against memory corruption vulnerabilities."
    cvss := 0
    cwe := "" }

def arc_not_found : Finding :=
  { issue := "fobjc-arc flag is not Found"
    status := IN_SECURE
    description := "App is not compiled with Automatic Reference Counting (ARC) flag. ARC is a compiler feature that provides automatic memory management of Objective-C objects and protects from memory corruption vulnerabilities."
    cvss := 2
    cwe := "CWE-119" }

def banned_apis_finding (s : String) : Finding :=
  { issue := "Binary make use of banned API(s)"
    status := IN_SECURE
    description := "The binary may contain the following banned API(s) " ++ s ++ "."
    cvss := 6
    cwe := "CWE-676" }

def crypto_finding (s : String) : Finding :=
  { issue := "Binary make use of the following Crypto API(s)"
    status := "Info"
    description := "The binary may use the following crypto API(s) " ++ s ++ "."
    cvss := 0
    cwe := "" }

def weak_hashes_finding (s : String) : Finding :=
  { issue := "Binary make use of the following Weak HASH API(s)"
    status := IN_SECURE
    description := "The binary may use the following weak hash API(s) " ++ s ++ "."
    cvss := 3
    cwe := "CWE-327" }

def hashes_finding (s : String) : Finding :=
  { issue := "Binary make use of the following HASH API(s)"
    status := INFO
    description := "The binary may use the following hash API(s) " ++ s ++ "."
    cvss := 0
    cwe := "" }

def randoms_finding (s : String) : Finding :=
  { issue := "Binary make use of the insecure Random Function(s)"
    status := IN_SECURE
    description := "The binary may use the following insecure Random Function(s) " ++ s ++ "."
    cvss := 3
    cwe := "CWE-338" }

def logging_finding : Finding :=
  { issue := "Binary make use of Logging Function"
    status := INFO
    description := "The binary may use NSLog function for logging."
    cvss := 7.5
    cwe := "CWE-532" }

def malloc_finding : Finding :=
  { issue := "Binary make use of malloc Function"
    status := IN_SECURE
    description := "The binary may use malloc function instead of calloc."
    cvss := 2
    cwe := "CWE-789" }

def debug_finding : Finding :=
  { issue := "Binary calls ptrace Function for anti-debugging."
    status := WARNING
    description := "The binary may use ptrace function. It can be used to detect and prevent debuggers.Ptrace is not a public API and Apps that use non-public APIs will be rejected from AppStore."
    cvss := 0
    cwe := "" }

def webview_finding : Finding :=
  { issue := "Binary uses WebView Component."
    status := INFO
    description := "The binary may use WebView Component."
    cvss := 0
    cwe := "" }

/- ## Tool resolution (`get_otool_out`, first lines) -/

/-- The `otool` utility resolution at the top of `get_otool_out`. -/
def otoolBin (env : Env) : String :=
  if 0 < env.otool_binary.length ∧ env.file_exists env.otool_binary = true
  then env.otool_binary else "otool"

/-- The `jtool` utility resolution, shared verbatim by `get_otool_out`
and `class_dump`. -/
def jtoolBin (env : Env) (tools_dir : String) : String :=
  if 0 < env.jtool_binary.length ∧ env.file_exists env.jtool_binary = true
  then env.jtool_binary else pathJoin tools_dir "jtool.ELF64"

/- ## `get_otool_out`: one definition per `cmd_type` branch.
`Except.error` models an escaping exception (a failed
`subprocess.check_output`); `.ok none` models the Python `return None`
taken when the platform is neither Darwin nor Linux. -/

def get_otool_out_libs (env : Env) (tools_dir bin_path bin_dir : String) :
    Except Unit (Option (List String)) :=
  if env.platform = "Darwin" then
    match env.check_output [otoolBin env, "-L", bin_path] with
    | .error e => .error e
    | .ok out =>
      .ok (some (pySplitLines (escape (pyRemoveAll out (bin_dir ++ "/")))))
  else if env.platform = "Linux" then
    match env.check_output
        [jtoolBin env tools_dir, "-arch", "arm", "-L", "-v", bin_path] with
    | .error e => .error e
    | .ok out =>
      .ok (some (pySplitLines (escape (pyRemoveAll out (bin_dir ++ "/")))))
  else
    .ok none

def get_otool_out_header (env : Env) (tools_dir bin_path : String) :
    Except Unit (Option String) :=
  if env.platform = "Darwin" then
    match env.check_output [otoolBin env, "-hv", bin_path] with
    | .error e => .error e
    | .ok out => .ok (some out)
  else if env.platform = "Linux" then
    match env.check_output
        [jtoolBin env tools_dir, "-arch", "arm", "-h", "-v", bin_path] with
    | .error e => .error e
    | .ok out => .ok (some out)
  else
    .ok none

def get_otool_out_symbols (env : Env) (tools_dir bin_path : String) :
    Except Unit (Option String) :=
  if env.platform = "Darwin" then
    match env.check_output [otoolBin env, "-Iv", bin_path] with
    | .error e => .error e
    | .ok out => .ok (some out)
  else if env.platform = "Linux" then
    match env.check_output
        [jtoolBin env tools_dir, "-arch", "arm", "-bind", "-v", bin_path] with
    | .error e => .error e
    | .ok out1 =>
      match env.check_output
          [jtoolBin env tools_dir, "-arch", "arm", "-lazy_bind", "-v",
           bin_path] with
      | .error e => .error e
      | .ok out2 => .ok (some (out1 ++ out2))
  else
    .ok none

/- ## `otool_analysis` -/

/-- `{'libs': …, 'anal': …}`.  `libs` keeps the Python value shape
(`None` or a list); each `anal` slot holds either a finding or the
falsy empty dict `{}` (here `Option.none`). -/
structure OtoolDict where
  libs : Option (List String)
  anal : List (Option Finding)
deriving DecidableEq, Repr

/-- The pure signature-scanning part of `otool_analysis`, from the PIE
check down to the assembly of `otool_dict['anal']`.  The weak-crypto
branch of the source calls `.formnat(...)` — a misspelling of `format`
that raises `AttributeError` whenever that branch is reached — modelled
by `Except.error ()`. -/
def otool_scan (libs : Option (List String)) (pie dat : String) :
    Except Unit OtoolDict :=
  let pie_flag := if pyIn "PIE" pie then pie_found else pie_not_found
  let ssmash :=
    if pyIn "stack_chk_guard" dat then ssmash_found else ssmash_not_found
  let arc_flag :=
    if pyIn "_objc_release" dat then arc_found else arc_not_found
  let baned_s := joinSep ", " (pySet (reFindall banned_tokens dat.toList))
  let banned_apis : Option Finding :=
    if 1 < baned_s.length then some (banned_apis_finding baned_s) else none
  let weak_algo_s :=
    joinSep ", " (pySet (reFindall weak_algo_tokens dat.toList))
  if 1 < weak_algo_s.length then
    .error ()
  else
    let crypto_s := joinSep ", " (pySet (reFindall crypto_tokens dat.toList))
    let crypto : Option Finding :=
      if 1 < crypto_s.length then some (crypto_finding crypto_s) else none
    let weak_hash_s :=
      joinSep ", " (pySet (reFindall weak_hash_tokens dat.toList))
    let weak_hashes : Option Finding :=
      if 1 < weak_hash_s.length then some (weak_hashes_finding weak_hash_s)
      else none
    let hash_s := joinSep ", " (pySet (reFindall hash_tokens dat.toList))
    let hashes : Option Finding :=
      if 1 < hash_s.length then some (hashes_finding hash_s) else none
    let rand_s := joinSep ", " (pySet (reFindall rand_tokens dat.toList))
    let randoms : Option Finding :=
      if 1 < rand_s.length then some (randoms_finding rand_s) else none
    let log_s := joinSep ", " (pySet (reFindall log_tokens dat.toList))
    let logging_f : Option Finding :=
      if 1 < log_s.length then some logging_finding else none
    let mal_s := joinSep ", " (pySet (reFindall malloc_tokens dat.toList))
    let malloc_f : Option Finding :=
      if 1 < mal_s.length then some malloc_finding else none
    let ptrace_s := joinSep ", " (pySet (reFindall ptrace_tokens dat.toList))
    let debug_f : Option Finding :=
      if 1 < ptrace_s.length then some debug_finding else none
    .ok { libs := libs
          anal := [some pie_flag, some ssmash, some arc_flag, banned_apis,
                   none, crypto, weak_hashes, hashes, randoms, logging_f,
                   malloc_f, debug_f] }

/-- The body of `otool_analysis` up to its `except` handler.  A `None`
evidence value flowing into a `b'…' in …` membership test raises
`TypeError`, modelled by `.error ()`. -/
def otool_analysis_body (env : Env)
    (tools_dir bin_path bin_dir : String) : Except Unit OtoolDict :=
  match get_otool_out_libs env tools_dir bin_path bin_dir with
  | .error e => .error e
  | .ok libs =>
    match get_otool_out_header env tools_dir bin_path with
    | .error e => .error e
    | .ok none => .error ()
    | .ok (some pie) =>
      match get_otool_out_symbols env tools_dir bin_path with
      | .error e => .error e
      | .ok none => .error ()
      | .ok (some dat) => otool_scan libs pie dat

/-- `otool_analysis`: the `except Exception` handler logs and returns
`None`. -/
def otool_analysis (env : Env)
    (tools_dir bin_name bin_path bin_dir : String) : Option OtoolDict :=
  match otool_analysis_body env tools_dir bin_path bin_dir with
  | .error _ => none
  | .ok d => some d

/-- `detect_bin_type`. -/
def detect_bin_type (libs : List String) : String :=
  if libs.any (fun itm => pyIn "libswiftCore.dylib" itm) then "Swift"
  else "Objective C"

/- ## `class_dump` -/

/-- The platform/runtime dispatch at the top of `class_dump`: picks the
class-dump utility and its argument list.  `.ok none` models the
unsupported-platform branch (the source logs a warning and returns `{}`);
`.error ()` models an `os.chmod` failure escaping the dispatch. -/
def class_dump_dispatch (env : Env)
    (tools_dir bin_path bin_type : String) :
    Except Unit (Option (List String)) :=
  if env.platform = "Darwin" then
    let class_dump_bin :=
      if bin_type = "Swift" then
        if 0 < env.classdump_swift_binary.length ∧
            env.file_exists env.classdump_swift_binary = true then
          env.classdump_swift_binary
        else pathJoin tools_dir "class-dump-swift"
      else
        if 0 < env.classdumpz_binary.length ∧
            env.file_exists env.classdumpz_binary = true then
          env.classdumpz_binary
        else pathJoin tools_dir "class-dump-z"
    if env.chmod_ok class_dump_bin then .ok (some [class_dump_bin, bin_path])
    else .error ()
  else if env.platform = "Linux" then
    let jtool_bin := jtoolBin env tools_dir
    if env.chmod_ok jtool_bin then
      .ok (some [jtool_bin, "-arch", "arm", "-d", "objc", "-v", bin_path])
    else .error ()
  else
    .ok none

/-- The body of `class_dump` up to its `except` handler: dispatch, run the
dump, on the `Source: (null)` sentinel retry with `class-dump-swift`
(Darwin only), write `classdump.txt`, and flag `UIWebView`. -/
def class_dump_body (env : Env)
    (tools_dir bin_path app_dir bin_type : String) :
    Except Unit (Option Finding) :=
  match class_dump_dispatch env tools_dir bin_path bin_type with
  | .error e => .error e
  | .ok none => .ok none
  | .ok (some args) =>
    match env.check_output args with
    | .error e => .error e
    | .ok cd0 =>
      let retried : Except Unit String :=
        if pyIn "Source: (null)" cd0 = true ∧ env.platform = "Darwin" then
          env.check_output [pathJoin tools_dir "class-dump-swift", bin_path]
        else .ok cd0
      match retried with
      | .error e => .error e
      | .ok classdump =>
        if env.write_ok (pathJoin app_dir "classdump.txt") then
          .ok (if pyIn "UIWebView" classdump then some webview_finding
               else none)
        else .error ()

/-- `class_dump`: outer value `none` is the Python `None` produced by the
`except` handler; `some none` is the empty dict `{}`; `some (some f)` is
the webview finding. -/
def class_dump (env : Env)
    (tools_dir bin_path app_dir bin_type : String) :
    Option (Option Finding) :=
  match class_dump_body env tools_dir bin_path app_dir bin_type with
  | .error _ => none
  | .ok r => some r

/- ## `strings_on_ipa` -/

/-- `strings_on_ipa`: on success the result is the deduplicated,
HTML-escaped string list; when `strings_util` raises, the `except`
handler logs and the function falls off the end, returning `None`
(modelled as `Option.none`, not as an empty list). -/
def strings_on_ipa (env : Env) (bin_path : String) : Option (List String) :=
  match env.strings_util bin_path with
  | .error _ => none
  | .ok l => some ((pySet l).map escape)

/- ## `get_bin_info` -/

/-- `get_bin_info` delegates to the `macholib` parse, modelled by the
`machO` oracle: an exception propagates (this function has no handler);
`.ok none` is the `None` returned when the header list is empty. -/
def get_bin_info (env : Env) (bin_file : String) :
    Except Unit (Option BinInfo) :=
  env.machO bin_file

/- ## `binary_analysis` -/

/-- The final report dictionary.  In the missing-executable branch the
source never assigns the `macho` and `bin_type` keys: key absence is
modelled by `Option.none` in those fields.  `strings` keeps the Python
value shape (`None` or a list). -/
structure BinaryAnalysisDict where
  libs : Option (List String)
  bin_res : List Finding
  strings : Option (List String)
  macho : Option (Option BinInfo)
  bin_type : Option String
deriving DecidableEq, Repr

/-- The first `.app` entry of `os.listdir(src)` (empty string when there
is none), as computed by the loop in `binary_analysis`. -/
def dot_app_dir_of (env : Env) (src : String) : String :=
  ((env.listdir src).find? (fun d => pyEndsWith d ".app")).getD ""

def resolved_bin_dir (env : Env) (src : String) : String :=
  pathJoin src (dot_app_dir_of env src)

def resolved_bin_name (env : Env) (src : String)
    (executable_name : Option String) : String :=
  match executable_name with
  | none => pyRemoveAll (dot_app_dir_of env src) ".app"
  | some n => n

def resolved_bin_path (env : Env) (src : String)
    (executable_name : Option String) : String :=
  pathJoin (resolved_bin_dir env src) (resolved_bin_name env src executable_name)

/-- The body of `binary_analysis` up to its `except` handler.  If
`otool_analysis` returned `None`, the subscript `otool_dict['libs']`
raises `TypeError`; if the `libs` value is `None`, iterating it inside
`detect_bin_type` raises `TypeError`: both are modelled by `.error ()`
and caught by the outer handler. -/
def binary_analysis_body (env : Env) (src tools_dir app_dir : String)
    (executable_name : Option String) : Except Unit BinaryAnalysisDict :=
  let bin_dir := resolved_bin_dir env src
  let bin_name := resolved_bin_name env src executable_name
  let bin_path := resolved_bin_path env src executable_name
  if env.file_exists bin_path = true then
    match get_bin_info env bin_path with
    | .error e => .error e
    | .ok bin_info =>
      match otool_analysis env tools_dir bin_name bin_path bin_dir with
      | none => .error ()
      | some otool_dict =>
        match otool_dict.libs with
        | none => .error ()
        | some libsList =>
          let bin_type := detect_bin_type libsList
          let cls_dump : Option Finding :=
            match class_dump env tools_dir bin_path app_dir bin_type with
            | none => none
            | some none => none
            | some (some f) => some f
          let strings_in_ipa := strings_on_ipa env bin_path
          .ok { libs := some libsList
                bin_res := (otool_dict.anal ++ [cls_dump]).filterMap id
                strings := strings_in_ipa
                macho := some bin_info
                bin_type := some bin_type }
  else
    .ok { libs := some [], bin_res := [], strings := some [],
          macho := none, bin_type := none }

/-- `binary_analysis`: the outer `except Exception` handler logs and
returns `None`. -/
def binary_analysis (env : Env) (src tools_dir app_dir : String)
    (executable_name : Option String) : Option BinaryAnalysisDict :=
  match binary_analysis_body env src tools_dir app_dir executable_name with
  | .error _ => none
  | .ok d => some d

/-- The list of findings actually emitted by the signature scanner on a
given run (`otool_dict['anal']` with the falsy entries dropped, matching
the orchestrator's `filter(None, …)`); empty when `otool_analysis`
returned `None`. -/
def scanner_findings (env : Env)
    (tools_dir bin_name bin_path bin_dir : String) : List Finding :=
  match otool_analysis env tools_dir bin_name bin_path bin_dir with
  | none => []
  | some d => d.anal.filterMap id

/- ## Concrete environments used to exercise the embedding -/

def envBase : Env :=
  { platform := "Darwin"
    otool_binary := ""
    jtool_binary := ""
    classdump_swift_binary := ""
    classdumpz_binary := ""
    file_exists := fun _ => true
    check_output := fun _ => Except.ok ""
    chmod_ok := fun _ => true
    write_ok := fun _ => true
    listdir := fun _ => ["x.app"]
    strings_util := fun _ => Except.ok []
    machO := fun _ => Except.ok none }

/-- A Darwin `check_output` oracle answering the symbol-table request with
`sym`, the header request with `hdr`, and anything else with `""`. -/
def symOracle (sym hdr : String) : List String → Except Unit String :=
  fun args =>
    if args.contains "-Iv" then Except.ok sym
    else if args.contains "-hv" then Except.ok hdr
    else Except.ok ""

/- ## C5: binary-type classification -/

/-- C5: `detect_bin_type` returns `'Swift'` iff some entry of the library
list contains `libswiftCore.dylib` as a substring, and otherwise returns
`'Objective C'`. -/
theorem detect_bin_type_spec (libs : List String) :
    (detect_bin_type libs = "Swift" ↔
      ∃ itm ∈ libs, "libswiftCore.dylib".toList <:+: itm.toList) ∧
    (detect_bin_type libs = "Swift" ∨ detect_bin_type libs = "Objective C") := by
  rcases h : libs.any (fun itm => pyIn "libswiftCore.dylib" itm) with _ | _
  · have hd : detect_bin_type libs = "Objective C" := by
      simp [detect_bin_type, h]
    refine ⟨⟨fun hc => absurd (hd.symm.trans hc) (by decide), ?_⟩, Or.inr hd⟩
    rintro ⟨itm, hitm, hinf⟩
    have hfalse := List.any_eq_false.mp h itm hitm
    have htrue : pyIn "libswiftCore.dylib" itm = true := (pyIn_iff _ _).mpr hinf
    simp [htrue] at hfalse
  · have hd : detect_bin_type libs = "Swift" := by
      simp [detect_bin_type, h]
    refine ⟨⟨fun _ => ?_, fun _ => hd⟩, Or.inl hd⟩
    obtain ⟨itm, hitm, hp⟩ := List.any_eq_true.mp h
    exact ⟨itm, hitm, (pyIn_iff _ _).mp hp⟩

/- ## C6: missing executable short-circuits the pipeline -/

/-- The report produced in the missing-executable branch. -/
def empty_report : BinaryAnalysisDict :=
  { libs := some [], bin_res := [], strings := some [],
    macho := none, bin_type := none }

/-- C6: when the resolved executable path does not exist, `binary_analysis`
returns the report with empty libraries/findings/strings (and the run is
not an error); the result is moreover identical for every choice of the
external-utility oracles, i.e. no external utility, header parse or string
extraction is consulted. -/
theorem binary_analysis_missing_executable (env : Env)
    (src tools_dir app_dir : String) (ename : Option String)
    (h : env.file_exists (resolved_bin_path env src ename) = false) :
    binary_analysis env src tools_dir app_dir ename = some empty_report ∧
    ∀ co su ms ch wr,
      binary_analysis
        { env with check_output := co, strings_util := su, machO := ms,
                   chmod_ok := ch, write_ok := wr }
        src tools_dir app_dir ename = some empty_report := by
  constructor
  · unfold binary_analysis binary_analysis_body
    simp [h, empty_report]
  · intro co su ms ch wr
    unfold binary_analysis binary_analysis_body
    have hpath : resolved_bin_path
        { env with check_output := co, strings_util := su, machO := ms,
                   chmod_ok := ch, write_ok := wr } src ename
        = resolved_bin_path env src ename := rfl
    simp [hpath, h, empty_report]

/-- C6 witness: a concrete run on an environment whose executable is
missing. -/
theorem binary_analysis_missing_executable_witness :
    binary_analysis { envBase with file_exists := fun _ => false }
      "src" "tools" "app" none = some empty_report :=
  (binary_analysis_missing_executable
    { envBase with file_exists := fun _ => false }
    "src" "tools" "app" none rfl).1

/- ## C9: string extraction failure mode -/

def envC9 : Env := { envBase with strings_util := fun _ => Except.error () }

/-- C9 counterexample: when the underlying extraction raises, the source's
`except` handler logs and falls off the end, so `strings_on_ipa` returns
`None` — not an empty collection. -/
theorem strings_on_ipa_error_not_empty_list :
    strings_on_ipa envC9 "Payload/x.app/x" = none ∧
    strings_on_ipa envC9 "Payload/x.app/x" ≠ some [] := by
  refine ⟨rfl, ?_⟩
  intro hc
  exact Option.noConfusion hc

/-- C9 (amended): on an extraction error `strings_on_ipa` returns the
absent value `None` rather than propagating (and rather than an empty
collection); on success it returns the deduplicated, HTML-escaped
strings. -/
theorem strings_on_ipa_amended (env : Env) (p : String) :
    (env.strings_util p = Except.error () → strings_on_ipa env p = none) ∧
    (∀ l, env.strings_util p = Except.ok l →
      strings_on_ipa env p = some ((pySet l).map escape)) := by
  constructor
  · intro h
    unfold strings_on_ipa
    rw [h]
  · intro l h
    unfold strings_on_ipa
    rw [h]

/-- C9 witness: a concrete successful extraction, deduplicated and
escaped. -/
theorem strings_on_ipa_amended_witness :
    strings_on_ipa { envBase with strings_util := fun _ => Except.ok ["a", "a", "<"] }
      "bin" = some ["a", "&lt;"] := by
  have h := (strings_on_ipa_amended
    { envBase with strings_util := fun _ => Except.ok ["a", "a", "<"] }
    "bin").2 ["a", "a", "<"] rfl
  rw [h]
  rfl

/- ## C2: the weak-crypto category crashes the whole scan -/

def envC2 : Env := { envBase with check_output := symOracle "kCCAlgorithmDES" "PIE" }

/-- C2 failing input: a symbol table containing `kCCAlgorithmDES`.  The
weak-crypto branch is reached (the token matches) but the source calls
`.formnat(...)` — a misspelling of `format` — so an `AttributeError` is
raised, the scan's `except` handler fires, and `otool_analysis` returns
`None`: no weak-crypto finding with severity 3 is ever produced, and the
other categories' findings are lost with it. -/
theorem weak_crypto_match_crashes_scan :
    pyIn "kCCAlgorithmDES" "kCCAlgorithmDES" = true ∧
    "kCCAlgorithmDES" ∈ weak_algo_tokens ∧
    otool_scan (some [""]) "PIE" "kCCAlgorithmDES" = Except.error () ∧
    otool_analysis envC2 "tools" "x" "src/x.app/x" "src/x.app" = none := by
  refine ⟨by decide, by decide, rfl, rfl⟩

/- ## C7: the stray `||` makes four weak-crypto tokens unmatchable -/

def envC7 : Env := { envBase with check_output := symOracle "kCCOptionECBMode" "PIE" }

/-- C7 failing input: a symbol table containing `kCCOptionECBMode`.  The
token is in the weak-crypto catalog and occurs in the text, yet the empty
alternative produced by the doubled `|` matches first at every position,
so the match set is `{''}`, the joined length is 0, and no weak-crypto
finding is emitted (while the other categories still behave normally). -/
theorem weak_crypto_token_without_finding :
    "kCCOptionECBMode" ∈ weak_algo_tokens ∧
    pyIn "kCCOptionECBMode" "kCCOptionECBMode" = true ∧
    reFindall weak_algo_tokens "kCCOptionECBMode".toList =
      ["", "", "", "", "", "", "", "", "", "", "", "", "", "", "", "", ""] ∧
    otool_scan (some [""]) "PIE" "kCCOptionECBMode" =
      Except.ok { libs := some [""],
                  anal := [some pie_found, some ssmash_not_found,
                           some arc_not_found, none, none, none, none,
                           none, none, none, none, none] } ∧
    scanner_findings envC7 "tools" "x" "src/x.app/x" "src/x.app" =
      [pie_found, ssmash_not_found, arc_not_found] := by
  refine ⟨by decide, by decide, by decide, rfl, rfl⟩

/- ## C1: unsupported host platform -/

def envC1 : Env := { envBase with platform := "Windows" }

/-- C1 counterexample: on a platform that is neither Darwin nor Linux
(executable present, header parse fine), `binary_analysis` returns `None`
— not a report with empty libraries/findings/strings. -/
theorem unsupported_platform_no_report :
    binary_analysis envC1 "src" "tools" "app" none = none := rfl

/-- C1 (amended): on an unsupported platform each of the three evidence
kinds resolves to the absent value `None`; `otool_analysis` then faults on
the absent header dump, its handler returns `None`, and `binary_analysis`
faults on that `None`, so its own handler returns `None` — the run does
not raise, but neither does it produce a report with empty fields. -/
theorem unsupported_platform_amended (env : Env)
    (src tools_dir app_dir : String) (ename : Option String)
    (h1 : env.platform ≠ "Darwin") (h2 : env.platform ≠ "Linux")
    (h3 : env.file_exists (resolved_bin_path env src ename) = true) :
    get_otool_out_libs env tools_dir (resolved_bin_path env src ename)
        (resolved_bin_dir env src) = Except.ok none ∧
    get_otool_out_header env tools_dir (resolved_bin_path env src ename) =
        Except.ok none ∧
    get_otool_out_symbols env tools_dir (resolved_bin_path env src ename) =
        Except.ok none ∧
    otool_analysis env tools_dir (resolved_bin_name env src ename)
        (resolved_bin_path env src ename) (resolved_bin_dir env src) = none ∧
    binary_analysis env src tools_dir app_dir ename = none := by
  have hl : get_otool_out_libs env tools_dir (resolved_bin_path env src ename)
      (resolved_bin_dir env src) = Except.ok none := by
    unfold get_otool_out_libs
    rw [if_neg h1, if_neg h2]
  have hh : get_otool_out_header env tools_dir
      (resolved_bin_path env src ename) = Except.ok none := by
    unfold get_otool_out_header
    rw [if_neg h1, if_neg h2]
  have hs : get_otool_out_symbols env tools_dir
      (resolved_bin_path env src ename) = Except.ok none := by
    unfold get_otool_out_symbols
    rw [if_neg h1, if_neg h2]
  have ho : otool_analysis env tools_dir (resolved_bin_name env src ename)
      (resolved_bin_path env src ename) (resolved_bin_dir env src) = none := by
    unfold otool_analysis otool_analysis_body
    rw [hl, hh]
  refine ⟨hl, hh, hs, ho, ?_⟩
  unfold binary_analysis binary_analysis_body
  rw [if_pos h3]
  unfold get_bin_info
  cases hmo : env.machO (resolved_bin_path env src ename) with
  | error e => rfl
  | ok bi => rw [ho]

/-- C1 amended witness: the concrete unsupported-platform environment. -/
theorem unsupported_platform_amended_witness :
    get_otool_out_libs envC1 "tools" (resolved_bin_path envC1 "src" none)
        (resolved_bin_dir envC1 "src") = Except.ok none ∧
    binary_analysis envC1 "src" "tools" "app" none = none := by
  have h := unsupported_platform_amended envC1 "src" "tools" "app" none
    (by decide) (by decide) rfl
  exact ⟨h.1, h.2.2.2.2⟩

/- ## Which findings can the scanner and the class dump emit? -/

/-- The closed catalog of findings `otool_analysis` can place in
`otool_dict['anal']` (the weak-crypto finding is absent: the branch that
would build it raises before constructing it). -/
def producible (f : Finding) : Prop :=
  f = pie_found ∨ f = pie_not_found ∨ f = ssmash_found ∨
  f = ssmash_not_found ∨ f = arc_found ∨ f = arc_not_found ∨
  f = logging_finding ∨ f = malloc_finding ∨ f = debug_finding ∨
  (∃ s, f = banned_apis_finding s) ∨ (∃ s, f = crypto_finding s) ∨
  (∃ s, f = weak_hashes_finding s) ∨ (∃ s, f = hashes_finding s) ∨
  (∃ s, f = randoms_finding s)

theorem otool_scan_mem (libs : Option (List String)) (pie dat : String)
    (d : OtoolDict) (f : Finding)
    (hok : otool_scan libs pie dat = Except.ok d)
    (hmem : some f ∈ d.anal) : producible f := by
  simp only [otool_scan] at hok
  split at hok
  · simp at hok
  · injection hok with hok
    subst hok
    simp only [List.mem_cons, List.not_mem_nil, or_false] at hmem
    unfold producible
    rcases hmem with h|h|h|h|h|h|h|h|h|h|h|h
    · split at h <;> injection h with h <;> subst h
      · exact Or.inl rfl
      · exact Or.inr (Or.inl rfl)
    · split at h <;> injection h with h <;> subst h
      · exact Or.inr (Or.inr (Or.inl rfl))
      · exact Or.inr (Or.inr (Or.inr (Or.inl rfl)))
    · split at h <;> injection h with h <;> subst h
      · exact Or.inr (Or.inr (Or.inr (Or.inr (Or.inl rfl))))
      · exact Or.inr (Or.inr (Or.inr (Or.inr (Or.inr (Or.inl rfl)))))
    · split at h
      · injection h with h
        subst h
        exact Or.inr (Or.inr (Or.inr (Or.inr (Or.inr (Or.inr (Or.inr (Or.inr (Or.inr (Or.inl ⟨_, rfl⟩)))))))))
      · simp at h
    · simp at h
    · split at h
      · injection h with h
        subst h
        exact Or.inr (Or.inr (Or.inr (Or.inr (Or.inr (Or.inr (Or.inr (Or.inr (Or.inr (Or.inr (Or.inl ⟨_, rfl⟩))))))))))
      · simp at h
    · split at h
      · injection h with h
        subst h
        exact Or.inr (Or.inr (Or.inr (Or.inr (Or.inr (Or.inr (Or.inr (Or.inr (Or.inr (Or.inr (Or.inr (Or.inl ⟨_, rfl⟩)))))))))))
      · simp at h
    · split at h
      · injection h with h
        subst h
        exact Or.inr (Or.inr (Or.inr (Or.inr (Or.inr (Or.inr (Or.inr (Or.inr (Or.inr (Or.inr (Or.inr (Or.inr (Or.inl ⟨_, rfl⟩))))))))))))
      · simp at h
    · split at h
      · injection h with h
        subst h
        exact Or.inr (Or.inr (Or.inr (Or.inr (Or.inr (Or.inr (Or.inr (Or.inr (Or.inr (Or.inr (Or.inr (Or.inr (Or.inr ⟨_, rfl⟩))))))))))))
      · simp at h
    · split at h
      · injection h with h
        subst h
        exact Or.inr (Or.inr (Or.inr (Or.inr (Or.inr (Or.inr (Or.inl rfl))))))
      · simp at h
    · split at h
      · injection h with h
        subst h
        exact Or.inr (Or.inr (Or.inr (Or.inr (Or.inr (Or.inr (Or.inr (Or.inl rfl)))))))
      · simp at h
    · split at h
      · injection h with h
        subst h
        exact Or.inr (Or.inr (Or.inr (Or.inr (Or.inr (Or.inr (Or.inr (Or.inr (Or.inl rfl))))))))
      · simp at h

theorem class_dump_some_finding (env : Env)
    (tools_dir bin_path app_dir bin_type : String) (f : Finding)
    (h : class_dump env tools_dir bin_path app_dir bin_type = some (some f)) :
    f = webview_finding := by
  unfold class_dump at h
  split at h
  · simp at h
  · rename_i r heq
    injection h with h
    subst h
    simp only [class_dump_body] at heq
    split at heq
    · simp at heq
    · simp at heq
    · split at heq
      · simp at heq
      · split at heq
        · simp at heq
        · split at heq
          · injection heq with heq
            split at heq
            · injection heq with heq
              exact heq.symm
            · simp at heq
          · simp at heq

theorem otool_analysis_mem_producible (env : Env)
    (tools_dir bin_name bin_path bin_dir : String) (dd : OtoolDict) (f : Finding)
    (ho : otool_analysis env tools_dir bin_name bin_path bin_dir = some dd)
    (hm : some f ∈ dd.anal) : producible f := by
  unfold otool_analysis at ho
  split at ho
  · simp at ho
  · rename_i x heq
    injection ho with ho
    subst ho
    unfold otool_analysis_body at heq
    split at heq
    · simp at heq
    · split at heq
      · simp at heq
      · simp at heq
      · split at heq
        · simp at heq
        · simp at heq
        · exact otool_scan_mem _ _ _ _ _ heq hm

/-- Any finding emitted by the signature scanner, or returned by the class
metadata extractor, is in the closed catalog. -/
theorem emitted_producible (env : Env)
    (tools_dir bin_name bin_path bin_dir app_dir bin_type : String)
    (f : Finding)
    (h : f ∈ scanner_findings env tools_dir bin_name bin_path bin_dir ∨
         class_dump env tools_dir bin_path app_dir bin_type = some (some f)) :
    producible f ∨ f = webview_finding := by
  rcases h with h | h
  · unfold scanner_findings at h
    split at h
    · simp at h
    · rename_i dd heq
      obtain ⟨o, ho, hid⟩ := List.mem_filterMap.mp h
      rw [id] at hid
      subst hid
      exact Or.inl (otool_analysis_mem_producible env tools_dir bin_name
        bin_path bin_dir dd f heq ho)
  · exact Or.inr (class_dump_some_finding env tools_dir bin_path app_dir
      bin_type f h)

/-- Field invariants satisfied by every finding in the closed catalog:
severity is non-negative, status is one of the four enumerated strings,
and the CWE is empty only for `Secure`/`Info` findings or the
anti-debugging `Warning` finding. -/
theorem producible_invariant (f : Finding)
    (hp : producible f ∨ f = webview_finding) :
    0 ≤ f.cvss ∧
    (f.status = SECURE ∨ f.status = IN_SECURE ∨ f.status = INFO ∨
      f.status = WARNING) ∧
    (f.cwe = "" → f.status = SECURE ∨ f.status = INFO ∨ f = debug_finding) := by
  rcases hp with hp | hp
  · unfold producible at hp
    rcases hp with h|h|h|h|h|h|h|h|h|⟨s,h⟩|⟨s,h⟩|⟨s,h⟩|⟨s,h⟩|⟨s,h⟩ <;> subst h
    · exact ⟨by norm_num [pie_found], Or.inl rfl, fun _ => Or.inl rfl⟩
    · exact ⟨by norm_num [pie_not_found], Or.inr (Or.inl rfl),
        fun hc => absurd hc (by decide)⟩
    · exact ⟨by norm_num [ssmash_found], Or.inl rfl, fun _ => Or.inl rfl⟩
    · exact ⟨by norm_num [ssmash_not_found], Or.inr (Or.inl rfl),
        fun hc => absurd hc (by decide)⟩
    · exact ⟨by norm_num [arc_found], Or.inl rfl, fun _ => Or.inl rfl⟩
    · exact ⟨by norm_num [arc_not_found], Or.inr (Or.inl rfl),
        fun hc => absurd hc (by decide)⟩
    · exact ⟨by norm_num [logging_finding], Or.inr (Or.inr (Or.inl rfl)),
        fun hc => absurd hc (by decide)⟩
    · exact ⟨by norm_num [malloc_finding], Or.inr (Or.inl rfl),
        fun hc => absurd hc (by decide)⟩
    · exact ⟨by norm_num [debug_finding], Or.inr (Or.inr (Or.inr rfl)),
        fun _ => Or.inr (Or.inr rfl)⟩
    · exact ⟨by norm_num [banned_apis_finding], Or.inr (Or.inl rfl),
        fun hc => absurd hc (by simp [banned_apis_finding])⟩
    · exact ⟨by norm_num [crypto_finding], Or.inr (Or.inr (Or.inl rfl)),
        fun _ => Or.inr (Or.inl rfl)⟩
    · exact ⟨by norm_num [weak_hashes_finding], Or.inr (Or.inl rfl),
        fun hc => absurd hc (by simp [weak_hashes_finding])⟩
    · exact ⟨by norm_num [hashes_finding], Or.inr (Or.inr (Or.inl rfl)),
        fun _ => Or.inr (Or.inl rfl)⟩
    · exact ⟨by norm_num [randoms_finding], Or.inr (Or.inl rfl),
        fun hc => absurd hc (by simp [randoms_finding])⟩
  · subst hp
    exact ⟨by norm_num [webview_finding], Or.inr (Or.inr (Or.inl rfl)),
      fun _ => Or.inr (Or.inl rfl)⟩

/-- Severity policy satisfied by every finding in the closed catalog:
`Secure` findings carry severity 0; `Info` findings carry severity 0
except the logging finding; a strictly positive severity occurs only on
`Insecure` findings or the logging finding. -/
theorem catalog_severity_policy (f : Finding)
    (hp : producible f ∨ f = webview_finding) :
    (f.status = SECURE → f.cvss = 0) ∧
    (f.status = INFO → f.cvss = 0 ∨ f = logging_finding) ∧
    (0 < f.cvss → f.status = IN_SECURE ∨ f = logging_finding) := by
  rcases hp with hp | hp
  · unfold producible at hp
    rcases hp with h|h|h|h|h|h|h|h|h|⟨s,h⟩|⟨s,h⟩|⟨s,h⟩|⟨s,h⟩|⟨s,h⟩ <;> subst h
    · exact ⟨fun _ => rfl, fun hc => absurd hc (by decide),
        fun hc => absurd hc (by norm_num [pie_found])⟩
    · exact ⟨fun hc => absurd hc (by decide), fun hc => absurd hc (by decide),
        fun _ => Or.inl rfl⟩
    · exact ⟨fun _ => rfl, fun hc => absurd hc (by decide),
        fun hc => absurd hc (by norm_num [ssmash_found])⟩
    · exact ⟨fun hc => absurd hc (by decide), fun hc => absurd hc (by decide),
        fun _ => Or.inl rfl⟩
    · exact ⟨fun _ => rfl, fun hc => absurd hc (by decide),
        fun hc => absurd hc (by norm_num [arc_found])⟩
    · exact ⟨fun hc => absurd hc (by decide), fun hc => absurd hc (by decide),
        fun _ => Or.inl rfl⟩
    · exact ⟨fun hc => absurd hc (by decide), fun _ => Or.inr rfl,
        fun _ => Or.inr rfl⟩
    · exact ⟨fun hc => absurd hc (by decide), fun hc => absurd hc (by decide),
        fun _ => Or.inl rfl⟩
    · exact ⟨fun hc => absurd hc (by decide), fun hc => absurd hc (by decide),
        fun hc => absurd hc (by norm_num [debug_finding])⟩
    · exact ⟨fun hc => absurd hc (by simp [banned_apis_finding, SECURE, IN_SECURE, INFO, WARNING]),
        fun hc => absurd hc (by simp [banned_apis_finding, SECURE, IN_SECURE, INFO, WARNING]),
        fun _ => Or.inl rfl⟩
    · exact ⟨fun hc => absurd hc (by simp [crypto_finding, SECURE, IN_SECURE, INFO, WARNING]),
        fun _ => Or.inl rfl,
        fun hc => absurd hc (by norm_num [crypto_finding])⟩
    · exact ⟨fun hc => absurd hc (by simp [weak_hashes_finding, SECURE, IN_SECURE, INFO, WARNING]),
        fun hc => absurd hc (by simp [weak_hashes_finding, SECURE, IN_SECURE, INFO, WARNING]),
        fun _ => Or.inl rfl⟩
    · exact ⟨fun hc => absurd hc (by simp [hashes_finding, SECURE, IN_SECURE, INFO, WARNING]),
        fun _ => Or.inl rfl,
        fun hc => absurd hc (by norm_num [hashes_finding])⟩
    · exact ⟨fun hc => absurd hc (by simp [randoms_finding, SECURE, IN_SECURE, INFO, WARNING]),
        fun hc => absurd hc (by simp [randoms_finding, SECURE, IN_SECURE, INFO, WARNING]),
        fun _ => Or.inl rfl⟩
  · subst hp
    exact ⟨fun hc => absurd hc (by decide), fun _ => Or.inl rfl,
      fun hc => absurd hc (by norm_num [webview_finding])⟩

/- ## C3: finding field invariants -/

def envC3 : Env := { envBase with check_output := symOracle "_ptrace" "PIE" }

/-- C3 counterexample: the anti-debugging finding is emitted by the
signature scanner with status `Warning` and an empty weakness
classification, so an empty CWE does not imply status `Secure`/`Info`. -/
theorem warning_finding_with_empty_cwe :
    debug_finding ∈ scanner_findings envC3 "tools" "x" "src/x.app/x" "src/x.app" ∧
    debug_finding.cwe = "" ∧
    debug_finding.status ≠ SECURE ∧ debug_finding.status ≠ INFO := by
  have hs : scanner_findings envC3 "tools" "x" "src/x.app/x" "src/x.app" =
      [pie_found, ssmash_not_found, arc_not_found, debug_finding] := rfl
  refine ⟨?_, rfl, by decide, by decide⟩
  rw [hs]
  simp

/-- C3 (amended): for every finding produced by the signature scanner or
returned by the class metadata extractor, the severity is ≥ 0, the status
is one of the four enumerated values, and the weakness classification is
empty only when the status is `Secure` or `Info`, or the finding is the
anti-debugging `Warning` finding (whose CWE is also empty). -/
theorem finding_fields_invariant (env : Env)
    (tools_dir bin_name bin_path bin_dir app_dir bin_type : String)
    (f : Finding)
    (h : f ∈ scanner_findings env tools_dir bin_name bin_path bin_dir ∨
         class_dump env tools_dir bin_path app_dir bin_type = some (some f)) :
    0 ≤ f.cvss ∧
    (f.status = SECURE ∨ f.status = IN_SECURE ∨ f.status = INFO ∨
      f.status = WARNING) ∧
    (f.cwe = "" → f.status = SECURE ∨ f.status = INFO ∨ f = debug_finding) :=
  producible_invariant f
    (emitted_producible env tools_dir bin_name bin_path bin_dir app_dir
      bin_type f h)

/-- C3 witness: the invariant instantiated at a concretely emitted
finding. -/
theorem finding_fields_invariant_witness :
    0 ≤ debug_finding.cvss ∧
    (debug_finding.status = SECURE ∨ debug_finding.status = IN_SECURE ∨
      debug_finding.status = INFO ∨ debug_finding.status = WARNING) ∧
    (debug_finding.cwe = "" →
      debug_finding.status = SECURE ∨ debug_finding.status = INFO ∨
      debug_finding = debug_finding) := by
  refine finding_fields_invariant envC3 "tools" "x" "src/x.app/x"
    "src/x.app" "app" "Objective C" debug_finding (Or.inl ?_)
  have hs : scanner_findings envC3 "tools" "x" "src/x.app/x" "src/x.app" =
      [pie_found, ssmash_not_found, arc_not_found, debug_finding] := rfl
  rw [hs]
  simp

/- ## C4: severity vs status -/

def envC4 : Env := { envBase with check_output := symOracle "_NSLog" "PIE" }

/-- C4 counterexample: the logging finding is emitted with status `Info`
and severity 7.5 — an informational finding with a strictly positive
severity, which moreover is neither `Insecure` nor `Warning`. -/
theorem info_finding_with_positive_severity :
    logging_finding ∈ scanner_findings envC4 "tools" "x" "src/x.app/x" "src/x.app" ∧
    logging_finding.status = INFO ∧
    logging_finding.cvss = 7.5 ∧
    logging_finding.cvss ≠ 0 ∧
    logging_finding.status ≠ IN_SECURE ∧ logging_finding.status ≠ WARNING := by
  have hs : scanner_findings envC4 "tools" "x" "src/x.app/x" "src/x.app" =
      [pie_found, ssmash_not_found, arc_not_found, logging_finding] := rfl
  refine ⟨?_, rfl, rfl, by norm_num [logging_finding], by decide, by decide⟩
  rw [hs]
  simp

/-- C4 (amended): for every finding produced by the signature scanner or
the class metadata extractor, a `Secure` status implies severity 0; an
`Info` status implies severity 0 except for the logging-function finding
(severity 7.5); and a strictly positive severity occurs only on `Insecure`
findings or that same logging finding. -/
theorem severity_status_policy (env : Env)
    (tools_dir bin_name bin_path bin_dir app_dir bin_type : String)
    (f : Finding)
    (h : f ∈ scanner_findings env tools_dir bin_name bin_path bin_dir ∨
         class_dump env tools_dir bin_path app_dir bin_type = some (some f)) :
    (f.status = SECURE → f.cvss = 0) ∧
    (f.status = INFO → f.cvss = 0 ∨ f = logging_finding) ∧
    (0 < f.cvss → f.status = IN_SECURE ∨ f = logging_finding) :=
  catalog_severity_policy f
    (emitted_producible env tools_dir bin_name bin_path bin_dir app_dir
      bin_type f h)

/-- C4 witness: the policy instantiated at a concretely emitted finding. -/
theorem severity_status_policy_witness :
    (logging_finding.status = SECURE → logging_finding.cvss = 0) ∧
    (logging_finding.status = INFO →
      logging_finding.cvss = 0 ∨ logging_finding = logging_finding) ∧
    (0 < logging_finding.cvss →
      logging_finding.status = IN_SECURE ∨ logging_finding = logging_finding) := by
  refine severity_status_policy envC4 "tools" "x" "src/x.app/x"
    "src/x.app" "app" "Objective C" logging_finding (Or.inl ?_)
  have hs : scanner_findings envC4 "tools" "x" "src/x.app/x" "src/x.app" =
      [pie_found, ssmash_not_found, arc_not_found, logging_finding] := rfl
  rw [hs]
  simp

/- ## C8: the UIWebView flag of `class_dump` -/

/-- C8: when the platform dispatch succeeds and the class-metadata dump
text is `d` (no fallback retry applies and the artifact write succeeds),
`class_dump` returns exactly one finding — the Info/severity-0 webview
finding — iff `d` contains `UIWebView`, and no finding otherwise. -/
theorem class_dump_webview_spec (env : Env)
    (tools_dir bin_path app_dir bin_type : String) (args : List String)
    (d : String)
    (hdisp : class_dump_dispatch env tools_dir bin_path bin_type =
      Except.ok (some args))
    (hout : env.check_output args = Except.ok d)
    (hnofb : ¬ (pyIn "Source: (null)" d = true ∧ env.platform = "Darwin"))
    (hw : env.write_ok (pathJoin app_dir "classdump.txt") = true) :
    class_dump env tools_dir bin_path app_dir bin_type =
      some (if pyIn "UIWebView" d then some webview_finding else none) ∧
    webview_finding.status = INFO ∧ webview_finding.cvss = 0 := by
  refine ⟨?_, rfl, rfl⟩
  unfold class_dump class_dump_body
  rw [hdisp]
  simp only [hout]
  rw [if_neg hnofb]
  simp [hw]

def envC8 : Env :=
  { envBase with
      platform := "Linux"
      check_output := fun _ => Except.ok "xxUIWebViewyy" }

/-- C8 witness: a concrete dump containing `UIWebView` yields exactly the
webview finding. -/
theorem class_dump_webview_spec_witness :
    class_dump envC8 "tools" "bin" "app" "Objective C" =
      some (some webview_finding) := by
  have h := (class_dump_webview_spec envC8 "tools" "bin" "app" "Objective C"
    ["tools/jtool.ELF64", "-arch", "arm", "-d", "objc", "-v", "bin"]
    "xxUIWebViewyy" rfl rfl (by decide) rfl).1
  rw [h]
  rfl

/- ## C10: a class-dump fault is isolated -/

/-- C10: any fault inside class-metadata extraction is caught within
`class_dump` itself (its handler returns the absent value), and a run in
which `class_dump` returns the absent value still produces the full
report: the library list, all signature findings, the header info and the
extracted strings are retained. -/
theorem class_dump_failure_isolated :
    (∀ (env : Env) (tools_dir bin_path app_dir bin_type : String),
      class_dump_body env tools_dir bin_path app_dir bin_type =
        Except.error () →
      class_dump env tools_dir bin_path app_dir bin_type = none) ∧
    (∀ (env : Env) (src tools_dir app_dir : String) (ename : Option String)
      (info : Option BinInfo) (dd : OtoolDict) (l : List String),
      env.file_exists (resolved_bin_path env src ename) = true →
      env.machO (resolved_bin_path env src ename) = Except.ok info →
      otool_analysis env tools_dir (resolved_bin_name env src ename)
        (resolved_bin_path env src ename) (resolved_bin_dir env src) =
        some dd →
      dd.libs = some l →
      class_dump env tools_dir (resolved_bin_path env src ename) app_dir
        (detect_bin_type l) = none →
      binary_analysis env src tools_dir app_dir ename =
        some { libs := some l,
               bin_res := dd.anal.filterMap id,
               strings := strings_on_ipa env (resolved_bin_path env src ename),
               macho := some info,
               bin_type := some (detect_bin_type l) }) := by
  constructor
  · intro env tools_dir bin_path app_dir bin_type h
    unfold class_dump
    rw [h]
  · intro env src tools_dir app_dir ename info dd l h1 h2 h3 h4 h5
    unfold binary_analysis binary_analysis_body get_bin_info
    simp [h1, h2, h3, h4, h5, List.filterMap_append]

def envC10 : Env :=
  { envBase with
      platform := "Linux"
      check_output := fun args =>
        if args.contains "objc" then Except.error () else Except.ok ""
      strings_util := fun _ => Except.ok ["a"] }

/-- C10 witness: a concrete run in which the class-dump subprocess fails
but the report keeps the libraries, the signature findings and the
strings. -/
theorem class_dump_failure_isolated_witness :
    class_dump envC10 "tools" (resolved_bin_path envC10 "src" none) "app"
      (detect_bin_type [""]) = none ∧
    binary_analysis envC10 "src" "tools" "app" none =
      some { libs := some [""],
             bin_res := [pie_not_found, ssmash_not_found, arc_not_found],
             strings := some ["a"],
             macho := some none,
             bin_type := some "Objective C" } := by
  have h5 : class_dump envC10 "tools" (resolved_bin_path envC10 "src" none)
      "app" (detect_bin_type [""]) = none := rfl
  have h := (class_dump_failure_isolated).2 envC10 "src" "tools" "app" none
    none
    ⟨some [""],
     [some pie_not_found, some ssmash_not_found, some arc_not_found,
      none, none, none, none, none, none, none, none, none]⟩
    [""] rfl rfl rfl rfl h5
  refine ⟨h5, ?_⟩
  rw [h]
  rfl
